import Mathlib

/-!
# Verification of the RVD Vulnerability Data Engine

Shallow embedding of the core of the RVD repository (Rust), covering:

* the CSV batch importer (`src/utils/csv_importer.rs`),
* the NVD enrichment pipeline (`src/utils/nvd_api.rs`),
* the paginated filtered/sorted query (`load_vulnerabilities` in `src/gui/app.rs`),
* the schema-migration check (`src/db/schema.rs`).

Modelling conventions:

* Rust `String` is Lean `String`; all character-level operations (lower/upper
  casing, trimming, splitting) are implemented structurally over `String.data`
  so that every definition evaluates inside the kernel.  Rust's
  `to_lowercase`/`to_uppercase`/`eq_ignore_ascii_case` are ASCII case maps on
  the data appearing in this program, matched by `Char.toLower`/`Char.toUpper`.
* `chrono::NaiveDate` is the record `CalDate` (year/month/day with Gregorian
  validity enforced at parse time, matching `NaiveDate::parse_from_str`).
* The `vulnerabilities` table has `cve_id TEXT UNIQUE NOT NULL`, so for the
  importer it is modelled as a map from `cve_id` to the row's payload;
  `INSERT OR REPLACE` overwrites the entry (the store-assigned surrogate
  rowid is outside this model).  For the query layer, where ordering and the
  rowid matter, a table snapshot is a `List Vulnerability` in scan (rowid)
  order.
* SQL string comparison (`=`, `CASE ... WHEN`) uses SQLite's default BINARY
  collation and is therefore case-sensitive; `LIKE` and `LOWER(...)` are
  ASCII case-insensitive.  `ORDER BY` is modelled as a stable insertion sort
  on the emitted comparison, ties keeping scan order (the spec's tie rule).
* Fallible operations return `Option`/`Except`.
-/

/-! ## Character-list string helpers -/

/-- Split a character list at every occurrence of `sep`
(`str::split(sep)` / `String.splitOn` semantics: `"" ↦ [[]]`). -/
def split_on_char (sep : Char) : List Char → List (List Char)
  | [] => [[]]
  | c :: cs =>
    let rest := split_on_char sep cs
    if c == sep then [] :: rest
    else
      match rest with
      | [] => [[c]]
      | h :: t => (c :: h) :: t

/-- Trim ASCII/Unicode whitespace from both ends (Rust `str::trim`). -/
def trim_chars (cs : List Char) : List Char :=
  ((cs.dropWhile Char.isWhitespace).reverse.dropWhile Char.isWhitespace).reverse

/-- Rust `s.trim().is_empty()` for a Lean `String`. -/
def blank_str (s : String) : Bool :=
  (trim_chars s.data).isEmpty

/-- ASCII upper-casing (Rust `str::to_uppercase` on the ASCII data used here). -/
def upper_str (s : String) : String :=
  ⟨s.data.map Char.toUpper⟩

/-- ASCII lower-casing (Rust `str::to_lowercase`). -/
def lower_str (s : String) : String :=
  ⟨s.data.map Char.toLower⟩

/-- First `n` characters of a string (Rust `&s[..n]` on ASCII data). -/
def take_str (s : String) (n : Nat) : String :=
  ⟨s.data.take n⟩

/-- Does `cs` start with `needle`? -/
def starts_with_chars : List Char → List Char → Bool
  | _, [] => true
  | [], _ :: _ => false
  | c :: cs, d :: ds => c == d && starts_with_chars cs ds

/-- Contiguous-substring test on character lists. -/
def has_sub : List Char → List Char → Bool
  | [], needle => needle.isEmpty
  | c :: cs, needle => starts_with_chars (c :: cs) needle || has_sub cs needle

/-- Nonempty all-digit character list. -/
def all_digits (cs : List Char) : Bool :=
  !cs.isEmpty && cs.all Char.isDigit

/-- Decimal value of a digit list. -/
def digits_to_nat (cs : List Char) : Nat :=
  cs.foldl (fun acc c => acc * 10 + (c.toNat - 48)) 0

/-! ## Calendar dates (`chrono::NaiveDate`) -/

/-- A calendar date; validity is enforced by `mk_valid_date` at parse time. -/
structure CalDate where
  year : Nat
  month : Nat
  day : Nat
deriving DecidableEq, Repr

/-- Gregorian leap year. -/
def is_leap (y : Nat) : Bool :=
  (y % 4 == 0 && y % 100 != 0) || y % 400 == 0

/-- Days in a month. -/
def days_in_month (y m : Nat) : Nat :=
  if m == 2 then (if is_leap y then 29 else 28)
  else if m == 4 || m == 6 || m == 9 || m == 11 then 30
  else 31

/-- Build a date if the components form a real calendar date
(`NaiveDate` construction fails otherwise). -/
def mk_valid_date (y m d : Nat) : Option CalDate :=
  if 1 ≤ m ∧ m ≤ 12 ∧ 1 ≤ d ∧ d ≤ days_in_month y m then some ⟨y, m, d⟩ else none

/-- `NaiveDate::parse_from_str(s, "%Y-%m-%d")`: a 4-digit year and
1–2 digit month/day separated by dashes, whole input consumed, valid date. -/
def parse_iso_chars (cs : List Char) : Option CalDate :=
  match split_on_char '-' cs with
  | [ys, ms, ds] =>
    if all_digits ys && ys.length == 4 && all_digits ms && decide (ms.length ≤ 2)
        && all_digits ds && decide (ds.length ≤ 2) then
      mk_valid_date (digits_to_nat ys) (digits_to_nat ms) (digits_to_nat ds)
    else none
  | _ => none

/-- `NaiveDate::parse_from_str(s, "%Y-%m-%d")` on a `String`. -/
def parse_iso_date (s : String) : Option CalDate :=
  parse_iso_chars s.data

/-- `NaiveDate::parse_from_str(s, "%Y%m%d")`: exactly 8 digits, valid date. -/
def parse_compact_chars (cs : List Char) : Option CalDate :=
  if cs.length == 8 && cs.all Char.isDigit then
    mk_valid_date (digits_to_nat (cs.take 4)) (digits_to_nat ((cs.drop 4).take 2))
      (digits_to_nat (cs.drop 6))
  else none

/-! ## The `Vulnerability` row and the CSV importer
(`src/models/vulnerability.rs` as used throughout, `src/utils/csv_importer.rs`) -/

/-- A `vulnerabilities` row as carried by the program (`Vulnerability` struct).
`severity` is `TEXT NOT NULL`; the other payload columns are nullable. -/
structure Vulnerability where
  vulnerability_id : Option Nat
  cve_id : String
  description : Option String
  severity : String
  impact : Option String
  mitigation : Option String
  published_date : Option CalDate
deriving DecidableEq, Repr

/-- One deserialized CSV record (`VulnerabilityCsvRecord`); the csv reader maps
the 7 feed columns `Name, Status, Description, References, Phase, Votes,
Comments` onto these fields and turns empty optional fields into `none`. -/
structure VulnerabilityCsvRecord where
  cve_id : String
  severity : String
  description : String
  references : Option String
  published_date : Option String
  impact : Option String
  mitigation : Option String
deriving DecidableEq, Repr

/-- `is_valid_cve_id`: three dash-separated parts, `CVE` (case-insensitive),
a 4-digit year, a ≥4-digit all-digit sequence. -/
def is_valid_cve_id (cve_id : String) : Bool :=
  match split_on_char '-' cve_id.data with
  | [p0, p1, p2] =>
    p0.map Char.toLower == "cve".data
      && p1.length == 4 && p1.all Char.isDigit
      && decide (4 ≤ p2.length) && p2.all Char.isDigit
  | _ => false

/-- `parse_severity`: normalize the raw status string into the canonical
four-value vocabulary. -/
def parse_severity (raw_severity : String) : String :=
  if lower_str raw_severity == "high" || lower_str raw_severity == "entry" then "High"
  else if lower_str raw_severity == "medium" || lower_str raw_severity == "candidate" then "Medium"
  else if lower_str raw_severity == "low" then "Low"
  else "Unknown"

/-- `non_empty_string`: `None` for blank/whitespace-only input, else the
trimmed string. -/
def non_empty_string (s : String) : Option String :=
  if (trim_chars s.data).isEmpty then none else some ⟨trim_chars s.data⟩

/-- `parse_date`: a value embedding a parenthesized `YYYYMMDD` token
(`split('(').nth(1)`, trailing `')'` stripped) or a bare `YYYY-MM-DD`. -/
def parse_date (date_str : String) : Option CalDate :=
  match (split_on_char '(' date_str.data).drop 1 with
  | extracted :: _ =>
    parse_compact_chars ((extracted.reverse.dropWhile (fun c => c == ')')).reverse)
  | [] => parse_iso_chars date_str.data

/-- `process_csv_record`: reject a bad business key; a date that fails to
parse becomes `none` (`.and_then(|s| parse_date(s).ok())`); blank description
becomes `none`. -/
def process_csv_record (record : VulnerabilityCsvRecord) :
    Except String Vulnerability :=
  if !is_valid_cve_id record.cve_id then
    Except.error "Invalid CVE ID format"
  else
    Except.ok
      { vulnerability_id := none
        cve_id := record.cve_id
        description := non_empty_string record.description
        severity := parse_severity record.severity
        impact := record.impact
        mitigation := record.mitigation
        published_date := record.published_date.bind (fun s => parse_date s) }

/-- `is_metadata_record`: description, impact and mitigation all absent. -/
def is_metadata_record (vuln : Vulnerability) : Bool :=
  vuln.description.isNone && vuln.impact.isNone && vuln.mitigation.isNone

/-- The `vulnerabilities` table keyed by its `UNIQUE NOT NULL` business key
`cve_id` (surrogate rowids are outside this model). -/
abbrev VulnTable : Type := String → Option Vulnerability

/-- The empty table. -/
def empty_table : VulnTable := fun _ => none

/-- One `INSERT OR REPLACE INTO vulnerabilities ...` statement: a conflicting
`cve_id` row is replaced. -/
def insert_or_replace (table : VulnTable) (v : Vulnerability) : VulnTable :=
  fun k => if k = v.cve_id then some v else table k

/-- `insert_vulnerabilities`: execute the upsert for each row of a batch.
Batching into chunks of 1000 only draws transaction boundaries; the resulting
state and the summed insert count are those of the single fold. -/
def insert_vulnerabilities (table : VulnTable) (vulnerabilities : List Vulnerability) :
    VulnTable :=
  vulnerabilities.foldl insert_or_replace table

/-- The row-processing loop of `import_vulnerabilities_from_csv`: failed
records are skipped (warned), metadata records are dropped. -/
def processed_rows (records : List VulnerabilityCsvRecord) : List Vulnerability :=
  records.filterMap (fun r =>
    match process_csv_record r with
    | Except.ok v => if is_metadata_record v then none else some v
    | Except.error _ => none)

/-- `import_vulnerabilities_from_csv` after header discovery: the final table
state and the returned count of successfully imported rows. -/
def import_vulnerabilities (table : VulnTable) (records : List VulnerabilityCsvRecord) :
    VulnTable × Nat :=
  (insert_vulnerabilities table (processed_rows records), (processed_rows records).length)

/-! ## The NVD enrichment pipeline (`src/utils/nvd_api.rs`) -/

/-- One entry of `cve.descriptions` in the NVD response. -/
structure NvdDescription where
  lang : String
  value : String
deriving DecidableEq, Repr

/-- One CVSS metric entry (`score` is an unused float and omitted). -/
structure NvdCvssMetric where
  source : String
  severity : Option String
deriving DecidableEq, Repr

/-- The `metrics` object wrapping the CVSS metric list. -/
structure NvdMetrics where
  cvssMetrics : List NvdCvssMetric
deriving DecidableEq, Repr

/-- The `cve` object of one fetched NVD vulnerability. -/
structure NvdCve where
  id : String
  descriptions : List NvdDescription
  metrics : Option NvdMetrics
  published : String
  lastModified : String
deriving DecidableEq, Repr

/-- `get_english_description`: the first `lang == "en"` entry, if any. -/
def get_english_description (descriptions : List NvdDescription) : Option String :=
  (descriptions.find? (fun desc => desc.lang == "en")).map (fun desc => desc.value)

/-- `get_severity`: the first metric carrying a severity, upper-cased. -/
def get_severity (metrics : Option NvdMetrics) : Option String :=
  metrics.bind (fun m =>
    ((m.cvssMetrics.find? (fun metric => metric.severity.isSome)).bind
      (fun metric => metric.severity)).map upper_str)

/-- Rust `opt.as_ref().map_or(true, |s| s.trim().is_empty())`. -/
def opt_blank (o : Option String) : Bool :=
  match o with
  | none => true
  | some s => blank_str s

/-- Rust `severity.to_uppercase() == "UNKNOWN"`. -/
def sev_unknown (s : String) : Bool :=
  upper_str s == "UNKNOWN"

/-- The per-record qualification re-check at the top of
`update_fields_if_unknown` (`needs_update`). -/
def needs_update (v : Vulnerability) : Bool :=
  opt_blank v.description || sev_unknown v.severity || v.published_date.isNone
    || opt_blank v.impact || opt_blank v.mitigation

/-- The `description` local: fetched English text only if the stored one is
blank, else the stored value. -/
def enrich_description (v : Vulnerability) (cve : NvdCve) : Option String :=
  if opt_blank v.description then get_english_description cve.descriptions
  else v.description

/-- The `severity` local: the fetched upper-cased rating only if the stored
severity is the Unknown sentinel (case-insensitively), else the stored value;
the stored value again when the fetch offers no rating. -/
def enrich_severity (v : Vulnerability) (cve : NvdCve) : String :=
  if sev_unknown v.severity then (get_severity cve.metrics).getD v.severity
  else v.severity

/-- The `published_date` local: the first 10 characters of the fetched
timestamp parsed as `YYYY-MM-DD` only if the stored date is null. -/
def enrich_published (v : Vulnerability) (cve : NvdCve) : Option CalDate :=
  if v.published_date.isNone then parse_iso_date (take_str cve.published 10)
  else v.published_date

/-- The dynamically built `update_parts` column list: `description` whenever
the computed value is present, `severity` whenever the computed value is not
the Unknown sentinel, `published_date` whenever the computed date is present. -/
def update_columns (v : Vulnerability) (cve : NvdCve) : List String :=
  (if (enrich_description v cve).isSome then ["description"] else [])
    ++ (if !sev_unknown (enrich_severity v cve) then ["severity"] else [])
    ++ (if (enrich_published v cve).isSome then ["published_date"] else [])

/-- The effect of executing the built `UPDATE ... WHERE cve_id = ?` on the
row: exactly the included columns receive their computed values. -/
def apply_update (v : Vulnerability) (cve : NvdCve) : Vulnerability :=
  { v with
    description :=
      if (enrich_description v cve).isSome then enrich_description v cve
      else v.description
    severity :=
      if !sev_unknown (enrich_severity v cve) then enrich_severity v cve
      else v.severity
    published_date :=
      if (enrich_published v cve).isSome then enrich_published v cve
      else v.published_date }

/-- Result of one `update_fields_if_unknown` call: the `Ok(bool)` return
value, the row state afterwards, and the columns of the issued `UPDATE`
(empty when the write was skipped). -/
structure UpdateOutcome where
  updated : Bool
  row : Vulnerability
  cols : List String
deriving DecidableEq, Repr

/-- `update_fields_if_unknown`: skip fully-known rows without fetching;
`fetched` is `nvd_data.vulnerabilities.first()` of the successful API
response; the write is skipped when `update_parts` is empty, yet `Ok(true)`
is still returned whenever a fetched record was present. -/
def update_fields_if_unknown (v : Vulnerability) (fetched : Option NvdCve) :
    UpdateOutcome :=
  if !needs_update v then ⟨false, v, []⟩
  else
    match fetched with
    | none => ⟨false, v, []⟩
    | some cve =>
      if (update_columns v cve).isEmpty then ⟨true, v, []⟩
      else ⟨true, apply_update v cve, update_columns v cve⟩

/-- The `WHERE` clause of the batch SELECT in `batch_update_vulnerabilities`;
`=` comparisons use SQLite's case-sensitive BINARY collation, in particular
`severity = 'UNKNOWN'` matches only the exact upper-case string. -/
def sql_qualifies (v : Vulnerability) : Bool :=
  v.description.isNone || v.description == some ""
    || v.severity == "UNKNOWN"
    || v.published_date.isNone
    || v.impact.isNone || v.impact == some ""
    || v.mitigation.isNone || v.mitigation == some ""

/-! ## The paginated filtered/sorted query (`load_vulnerabilities`,
`src/gui/app.rs`) -/

/-- `SortField` (source constructors `CVE`, `Severity`, `Date`, `None`). -/
inductive SortField where
  | CVE
  | Severity
  | Date
  | NoSort
deriving DecidableEq, Repr

/-- `FilterSeverity`. -/
inductive FilterSeverity where
  | All
  | High
  | Medium
  | Low
deriving DecidableEq, Repr

/-- `DISPLAY_PAGE_SIZE`: the fixed number of items shown per page. -/
def DISPLAY_PAGE_SIZE : Nat := 15

/-- SQLite `hay LIKE '%q%'`: ASCII case-insensitive substring match (embedded
wildcard characters inside `q` are not modelled; no claim involves them). -/
def like_contains (hay q : String) : Bool :=
  has_sub (hay.data.map Char.toLower) (q.data.map Char.toLower)

/-- The assembled `WHERE` predicate: free-text match against `cve_id` and
`description` (`NULL` never matches), AND-ed with `LOWER(severity) = '...'`
for a specific severity filter. -/
def row_matches (search_query : String) (filter_severity : FilterSeverity)
    (v : Vulnerability) : Bool :=
  (search_query.data.isEmpty || like_contains v.cve_id search_query
      || (match v.description with
          | some d => like_contains d search_query
          | none => false))
    && (match filter_severity with
        | FilterSeverity.All => true
        | FilterSeverity.High => lower_str v.severity == "high"
        | FilterSeverity.Medium => lower_str v.severity == "medium"
        | FilterSeverity.Low => lower_str v.severity == "low")

/-- The `CASE severity WHEN 'HIGH' THEN 1 WHEN 'MEDIUM' THEN 2 WHEN 'LOW'
THEN 3 ELSE 4 END` ordering key; the comparisons are case-sensitive. -/
def severity_rank (s : String) : Nat :=
  if s == "HIGH" then 1
  else if s == "MEDIUM" then 2
  else if s == "LOW" then 3
  else 4

/-- `COALESCE(published_date, '9999-12-31')` as a numeric key (ISO date text
compares like this number). -/
def date_key (v : Vulnerability) : Nat :=
  match v.published_date with
  | some d => d.year * 10000 + d.month * 100 + d.day
  | none => 99991231

/-- `ORDER BY vulnerability_id` key (the column is non-null in the store). -/
def id_key (v : Vulnerability) : Nat :=
  v.vulnerability_id.getD 0

/-- Byte-lexicographic comparison of character lists (SQLite BINARY order on
the ASCII data appearing here). -/
def le_chars : List Char → List Char → Bool
  | [], _ => true
  | _ :: _, [] => false
  | c :: cs, d :: ds =>
    if c.toNat < d.toNat then true
    else if d.toNat < c.toNat then false
    else le_chars cs ds

/-- The emitted `ORDER BY` expression, as a ≤ comparison. -/
def row_le (sort_field : SortField) (a b : Vulnerability) : Bool :=
  match sort_field with
  | SortField.CVE => le_chars a.cve_id.data b.cve_id.data
  | SortField.Severity => decide (severity_rank a.severity ≤ severity_rank b.severity)
  | SortField.Date => decide (date_key a ≤ date_key b)
  | SortField.NoSort => decide (id_key a ≤ id_key b)

/-- Stable ordered insertion for the sort model. -/
def ordered_insert_by (le : α → α → Bool) (a : α) : List α → List α
  | [] => [a]
  | b :: l => if le a b then a :: b :: l else b :: ordered_insert_by le a l

/-- Stable insertion sort: `ORDER BY`, with ties keeping scan order. -/
def insertion_sort_by (le : α → α → Bool) : List α → List α
  | [] => []
  | a :: l => ordered_insert_by le a (insertion_sort_by le l)

/-- The rows in `ORDER BY <key> ASC|DESC` order (DESC flips the comparison;
stability keeps ties in rowid order either way). -/
def ordered_rows (sort_field : SortField) (sort_ascending : Bool)
    (rows : List Vulnerability) : List Vulnerability :=
  insertion_sort_by
    (fun a b => if sort_ascending then row_le sort_field a b else row_le sort_field b a)
    rows

/-- The `(items, total_pages)` pair returned by `load_vulnerabilities`. -/
structure QueryPage where
  items : List Vulnerability
  total_pages : Nat
deriving DecidableEq, Repr

/-- `load_vulnerabilities`: `COUNT(*)` with the predicate, then the ordered
`SELECT` with `LIMIT page_size OFFSET page * page_size`; the page total is
computed from the fixed `DISPLAY_PAGE_SIZE`, not from `page_size`. -/
def load_vulnerabilities (table : List Vulnerability) (search_query : String)
    (sort_field : SortField) (sort_ascending : Bool)
    (filter_severity : FilterSeverity) (page page_size : Nat) : QueryPage :=
  let matching := table.filter (row_matches search_query filter_severity)
  let total_count := matching.length
  let results :=
    ((ordered_rows sort_field sort_ascending matching).drop (page * page_size)).take
      page_size
  ⟨results, (total_count + DISPLAY_PAGE_SIZE - 1) / DISPLAY_PAGE_SIZE⟩

/-! ## The schema-migration check (`src/db/schema.rs`) -/

/-- `SELECT COALESCE(MAX(version), 0) FROM schema_version` over the ledger
(a list of `(version, description)` rows). -/
def get_schema_version (ledger : List (Nat × String)) : Nat :=
  ledger.foldl (fun acc r => max acc r.fst) 0

/-- `update_schema_version`: append a ledger row. -/
def update_schema_version (ledger : List (Nat × String)) (version : Nat)
    (description : String) : List (Nat × String) :=
  ledger ++ [(version, description)]

/-- `check_schema_version`: a single `match` on the current version — one
migration step per call, no loop; versions above 3 are warned and ignored. -/
def check_schema_version (ledger : List (Nat × String)) : List (Nat × String) :=
  match get_schema_version ledger with
  | 0 => update_schema_version ledger 1 "Initial schema"
  | 1 => update_schema_version ledger 2 "Added software tracking"
  | 2 => update_schema_version ledger 3 "Added robot management"
  | 3 => ledger
  | _ => ledger

/-! ## Concrete fixtures for witnesses and counterexamples -/

/-- An importer-written row with `Medium` severity at rowid 1. -/
def vSortMedium : Vulnerability :=
  { vulnerability_id := some 1, cve_id := "CVE-2000-0001", description := some "d",
    severity := "Medium", impact := some "i", mitigation := some "m",
    published_date := none }

/-- An importer-written row with `High` severity at rowid 2. -/
def vSortHigh : Vulnerability :=
  { vSortMedium with
    vulnerability_id := some 2
    cve_id := "CVE-2000-0002"
    severity := "High" }

/-- A table of 16 matching rows. -/
def table16 : List Vulnerability :=
  (List.range 16).map (fun i =>
    { vulnerability_id := some (i + 1), cve_id := "CVE-2020-0001",
      description := some "d", severity := "High", impact := some "i",
      mitigation := some "m", published_date := none })

/-- A row whose only unknown field is the importer's `Unknown` sentinel. -/
def vSentinel : Vulnerability :=
  { vulnerability_id := some 1, cve_id := "CVE-1999-0001",
    description := some "The vuln", severity := "Unknown", impact := some "bad",
    mitigation := some "patch", published_date := some ⟨1999, 1, 20⟩ }

/-- A row with every enrichable field unknown. -/
def vEmptyRow : Vulnerability :=
  { vulnerability_id := some 7, cve_id := "CVE-2020-0007", description := none,
    severity := "Unknown", impact := none, mitigation := none,
    published_date := none }

/-- A fetched NVD record offering an English description, a `high` rating and
a published timestamp. -/
def cveFetched : NvdCve :=
  { id := "CVE-2020-0007",
    descriptions := [⟨"es", "x"⟩, ⟨"en", "RCE"⟩],
    metrics := some ⟨[⟨"a", none⟩, ⟨"b", some "high"⟩]⟩,
    published := "2020-01-02T00:00:00.000", lastModified := "" }

/-- A feed record whose status string is unrecognized (`Reserved`). -/
def recReserved : VulnerabilityCsvRecord :=
  { cve_id := "CVE-2021-0001", severity := "Reserved", description := "desc",
    references := none, published_date := some "2021-01-01",
    impact := some "imp", mitigation := some "mit" }

/-- The row the importer produces from `recReserved`. -/
def vReserved : Vulnerability :=
  { vulnerability_id := none, cve_id := "CVE-2021-0001",
    description := some "desc", severity := "Unknown", impact := some "imp",
    mitigation := some "mit", published_date := some ⟨2021, 1, 1⟩ }

/-- A feed record with a valid key and an unparseable date field. -/
def recBadDate : VulnerabilityCsvRecord :=
  { cve_id := "CVE-2023-0001", severity := "High", description := "A test",
    references := none, published_date := some "NotADate", impact := none,
    mitigation := none }

/-- A feed record whose business key fails validation. -/
def recBadKey : VulnerabilityCsvRecord :=
  { cve_id := "INVALID-ID", severity := "High",
    description := "An invalid record", references := none,
    published_date := none, impact := none, mitigation := none }

/-- A row with known description, severity and date but missing impact,
so it qualifies for enrichment. -/
def vKnownFields : Vulnerability :=
  { vulnerability_id := some 3, cve_id := "CVE-2019-1010",
    description := some "KnownDescription", severity := "High", impact := none,
    mitigation := some "patch", published_date := some ⟨2019, 5, 4⟩ }

/-- A row whose only unknown field was severity; after one enrichment it is
fully known for the per-record predicate. -/
def vOnlySeverity : Vulnerability :=
  { vulnerability_id := some 4, cve_id := "CVE-2018-0004",
    description := some "complete", severity := "Unknown",
    impact := some "imp", mitigation := some "mit",
    published_date := some ⟨2018, 2, 3⟩ }

/-! ## Helper lemmas -/

/-- Record extensionality for `Vulnerability`. -/
theorem vuln_ext (a b : Vulnerability)
    (h1 : a.vulnerability_id = b.vulnerability_id) (h2 : a.cve_id = b.cve_id)
    (h3 : a.description = b.description) (h4 : a.severity = b.severity)
    (h5 : a.impact = b.impact) (h6 : a.mitigation = b.mitigation)
    (h7 : a.published_date = b.published_date) : a = b := by
  cases a
  cases b
  simp_all

/-- `update_fields_if_unknown` either leaves the row untouched with no
columns written, or (when a fetched record is present) produces
`apply_update` with the built column list. -/
theorem update_fields_cases (v : Vulnerability) (nvd : Option NvdCve) :
    ((update_fields_if_unknown v nvd).row = v
        ∧ (update_fields_if_unknown v nvd).cols = [])
    ∨ (∃ cve, nvd = some cve
        ∧ (update_fields_if_unknown v nvd).row = apply_update v cve
        ∧ (update_fields_if_unknown v nvd).cols = update_columns v cve) := by
  by_cases hn : needs_update v
  · cases nvd with
    | none => left; simp [update_fields_if_unknown, hn]
    | some cve =>
      by_cases hc : (update_columns v cve).isEmpty
      · left
        constructor
        · simp [update_fields_if_unknown, hn, hc]
        · simp [update_fields_if_unknown, hn, hc]
      · right
        refine ⟨cve, rfl, ?_, ?_⟩
        · simp [update_fields_if_unknown, hn, hc]
        · simp [update_fields_if_unknown, hn, hc]
  · left
    simp [update_fields_if_unknown, hn]

/-- A non-blank optional string is a `some` with non-blank content. -/
theorem opt_blank_false (o : Option String) (h : opt_blank o = false) :
    ∃ s, o = some s ∧ blank_str s = false := by
  cases o with
  | none => simp [opt_blank] at h
  | some s => exact ⟨s, rfl, by simpa [opt_blank] using h⟩

/-- When the computed description is the stored one or absent, the `UPDATE`
leaves the description unchanged. -/
theorem apply_update_description_of (w : Vulnerability) (cve : NvdCve)
    (h : enrich_description w cve = w.description
      ∨ enrich_description w cve = none) :
    (apply_update w cve).description = w.description := by
  rcases h with h | h
  · simp [apply_update, h]
  · simp [apply_update, h]

/-- When the computed severity is the stored one or still the Unknown
sentinel, the `UPDATE` leaves the severity unchanged. -/
theorem apply_update_severity_of (w : Vulnerability) (cve : NvdCve)
    (h : enrich_severity w cve = w.severity
      ∨ sev_unknown (enrich_severity w cve) = true) :
    (apply_update w cve).severity = w.severity := by
  rcases h with h | h
  · simp [apply_update, h]
  · simp [apply_update, h]

/-- When the computed date is the stored one or absent, the `UPDATE` leaves
the published date unchanged. -/
theorem apply_update_published_of (w : Vulnerability) (cve : NvdCve)
    (h : enrich_published w cve = w.published_date
      ∨ enrich_published w cve = none) :
    (apply_update w cve).published_date = w.published_date := by
  rcases h with h | h
  · simp [apply_update, h]
  · simp [apply_update, h]

/-- Recomputing the description for an already-updated row yields its stored
description, or nothing. -/
theorem enrich_description_stable (v : Vulnerability) (cve : NvdCve) :
    enrich_description (apply_update v cve) cve = (apply_update v cve).description
    ∨ enrich_description (apply_update v cve) cve = none := by
  by_cases hb : opt_blank v.description
  · cases hge : get_english_description cve.descriptions with
    | none =>
      have h1 : enrich_description v cve = none := by
        simp [enrich_description, hb, hge]
      have hwdesc : (apply_update v cve).description = v.description := by
        simp [apply_update, h1]
      right
      simp [enrich_description, hwdesc, hb, hge]
    | some x =>
      have h1 : enrich_description v cve = some x := by
        simp [enrich_description, hb, hge]
      have hwdesc : (apply_update v cve).description = some x := by
        simp [apply_update, h1]
      left
      by_cases hx : blank_str x
      · simp [enrich_description, opt_blank, hwdesc, hx, hge]
      · simp [enrich_description, opt_blank, hwdesc, hx]
  · obtain ⟨d, hd, hbd⟩ := opt_blank_false v.description (by simpa using hb)
    have hob : opt_blank (some d) = false := by
      simpa [opt_blank] using hbd
    have h1 : enrich_description v cve = some d := by
      rw [enrich_description]
      simp [hd, hob]
    have hwdesc : (apply_update v cve).description = some d := by
      simp [apply_update, h1]
    left
    simp [enrich_description, hwdesc, hob]

/-- Recomputing the severity for an already-updated row yields its stored
severity, or a value still equal to the Unknown sentinel. -/
theorem enrich_severity_stable (v : Vulnerability) (cve : NvdCve) :
    enrich_severity (apply_update v cve) cve = (apply_update v cve).severity
    ∨ sev_unknown (enrich_severity (apply_update v cve) cve) = true := by
  by_cases hs : sev_unknown v.severity
  · cases hg : get_severity cve.metrics with
    | none =>
      have h1 : enrich_severity v cve = v.severity := by
        simp [enrich_severity, hs, hg]
      have hwsev : (apply_update v cve).severity = v.severity := by
        simp [apply_update, h1, hs]
      left
      simp [enrich_severity, hwsev, hs, hg]
    | some s =>
      have h1 : enrich_severity v cve = s := by
        simp [enrich_severity, hs, hg]
      by_cases hus : sev_unknown s
      · have hwsev : (apply_update v cve).severity = v.severity := by
          simp [apply_update, h1, hus]
        right
        simp [enrich_severity, hwsev, hs, hg, hus]
      · have hwsev : (apply_update v cve).severity = s := by
          simp [apply_update, h1, hus]
        left
        simp [enrich_severity, hwsev, hus]
  · have h1 : enrich_severity v cve = v.severity := by
      simp [enrich_severity, hs]
    have hwsev : (apply_update v cve).severity = v.severity := by
      simp [apply_update, h1, hs]
    left
    simp [enrich_severity, hwsev, hs]

/-- Recomputing the published date for an already-updated row yields its
stored date, or nothing. -/
theorem enrich_published_stable (v : Vulnerability) (cve : NvdCve) :
    enrich_published (apply_update v cve) cve = (apply_update v cve).published_date
    ∨ enrich_published (apply_update v cve) cve = none := by
  cases hp : v.published_date with
  | some d =>
    have h1 : enrich_published v cve = some d := by
      simp [enrich_published, hp]
    have hwpub : (apply_update v cve).published_date = some d := by
      simp [apply_update, h1]
    left
    simp [enrich_published, hwpub]
  | none =>
    cases hparse : parse_iso_date (take_str cve.published 10) with
    | some d =>
      have h1 : enrich_published v cve = some d := by
        simp [enrich_published, hp, hparse]
      have hwpub : (apply_update v cve).published_date = some d := by
        simp [apply_update, h1]
      left
      simp [enrich_published, hwpub]
    | none =>
      have h1 : enrich_published v cve = none := by
        simp [enrich_published, hp, hparse]
      have hwpub : (apply_update v cve).published_date = none := by
        simp [apply_update, h1, hp]
      right
      simp [enrich_published, hwpub, hparse]

/-- Applying the computed `UPDATE` a second time with the same fetched data
does not change the row. -/
theorem apply_update_idem (v : Vulnerability) (cve : NvdCve) :
    apply_update (apply_update v cve) cve = apply_update v cve :=
  vuln_ext _ _ rfl rfl
    (apply_update_description_of _ cve (enrich_description_stable v cve))
    (apply_update_severity_of _ cve (enrich_severity_stable v cve))
    rfl rfl
    (apply_update_published_of _ cve (enrich_published_stable v cve))

/-- `find?` over an append searches the left list first. -/
theorem find_append {α : Type} (p : α → Bool) (l1 l2 : List α) :
    (l1 ++ l2).find? p =
      match l1.find? p with
      | some a => some a
      | none => l2.find? p := by
  induction l1 with
  | nil => simp
  | cons a t ih =>
    by_cases h : p a
    · simp [List.find?, h]
    · simp [List.find?, h, ih]

/-- Looking up a key after a batch of upserts finds the last batch row with
that key, else the previous table entry. -/
theorem insert_vulnerabilities_apply (db : VulnTable) (vs : List Vulnerability)
    (k : String) :
    insert_vulnerabilities db vs k =
      match vs.reverse.find? (fun v => v.cve_id == k) with
      | some v => some v
      | none => db k := by
  induction vs generalizing db with
  | nil => simp [insert_vulnerabilities]
  | cons v t ih =>
    have hstep : insert_vulnerabilities db (v :: t) k
        = insert_vulnerabilities (insert_or_replace db v) t k := by
      simp [insert_vulnerabilities]
    rw [hstep, ih]
    have hrev : (v :: t).reverse = t.reverse ++ [v] := by simp
    rw [hrev, find_append]
    cases hf : t.reverse.find? (fun w => w.cve_id == k) with
    | some w => rfl
    | none =>
      by_cases hk : v.cve_id = k
      · simp [List.find?, hk, insert_or_replace]
      · have hkb : (v.cve_id == k) = false := by
          simpa using hk
        have hk2 : ¬k = v.cve_id := fun h => hk h.symm
        simp [List.find?, hkb, insert_or_replace, hk2]

/-- Upserting the same batch twice leaves the table unchanged after the
first pass. -/
theorem insert_vulnerabilities_idem (db : VulnTable) (vs : List Vulnerability) :
    insert_vulnerabilities (insert_vulnerabilities db vs) vs
      = insert_vulnerabilities db vs := by
  funext k
  rw [insert_vulnerabilities_apply, insert_vulnerabilities_apply]
  cases hf : vs.reverse.find? (fun v => v.cve_id == k) with
  | some v => rfl
  | none => rfl

/-! ## Claim theorems -/

/-- C1: every field of a vulnerability row that held a known value before an
enrichment run — a non-blank description, a severity other than the Unknown
sentinel (matched case-insensitively, as both the code and the spec's
unknown-semantics do), a non-null published date, and impact/mitigation
always — has exactly the same value after `update_fields_if_unknown`;
enrichment only ever fills fields that were empty, Unknown or null. -/
theorem enrichment_preserves_known_fields (v : Vulnerability) (nvd : Option NvdCve) :
    (∀ d : String, v.description = some d → blank_str d = false →
      (update_fields_if_unknown v nvd).row.description = some d)
    ∧ (sev_unknown v.severity = false →
      (update_fields_if_unknown v nvd).row.severity = v.severity)
    ∧ (∀ dt : CalDate, v.published_date = some dt →
      (update_fields_if_unknown v nvd).row.published_date = some dt)
    ∧ (update_fields_if_unknown v nvd).row.impact = v.impact
    ∧ (update_fields_if_unknown v nvd).row.mitigation = v.mitigation
    ∧ (update_fields_if_unknown v nvd).row.cve_id = v.cve_id := by
  rcases update_fields_cases v nvd with ⟨hrow, -⟩ | ⟨cve, hnvd, hrow, -⟩
  · rw [hrow]
    exact ⟨fun d hd _ => hd, fun _ => rfl, fun dt ht => ht, rfl, rfl, rfl⟩
  · rw [hrow]
    refine ⟨?_, ?_, ?_, rfl, rfl, rfl⟩
    · intro d hd hb
      have hob : opt_blank (some d) = false := by
        simp [opt_blank, hb]
      have h1 : enrich_description v cve = some d := by
        rw [enrich_description]
        simp [hd, hob]
      simp [apply_update, h1]
    · intro hs
      have h1 : enrich_severity v cve = v.severity := by
        simp [enrich_severity, hs]
      simp [apply_update, h1, hs]
    · intro dt ht
      have h1 : enrich_published v cve = some dt := by
        simp [enrich_published, ht]
      simp [apply_update, h1]

/-- C1 witness: a row with known description, severity and date but missing
impact keeps those three values through an actual enrichment run. -/
theorem enrichment_preserves_known_fields_witness :
    blank_str "KnownDescription" = false
    ∧ sev_unknown vKnownFields.severity = false
    ∧ (update_fields_if_unknown vKnownFields (some cveFetched)).row.description
      = some "KnownDescription"
    ∧ (update_fields_if_unknown vKnownFields (some cveFetched)).row.severity
      = vKnownFields.severity
    ∧ (update_fields_if_unknown vKnownFields (some cveFetched)).row.published_date
      = some ⟨2019, 5, 4⟩
    ∧ (update_fields_if_unknown vKnownFields (some cveFetched)).row.impact
      = vKnownFields.impact :=
  ⟨by decide, by decide,
   (enrichment_preserves_known_fields vKnownFields (some cveFetched)).1
     "KnownDescription" rfl (by decide),
   (enrichment_preserves_known_fields vKnownFields (some cveFetched)).2.1 (by decide),
   (enrichment_preserves_known_fields vKnownFields (some cveFetched)).2.2.1
     ⟨2019, 5, 4⟩ rfl,
   (enrichment_preserves_known_fields vKnownFields (some cveFetched)).2.2.2.1⟩

/-- C10: the enrichment pipeline never modifies the impact or mitigation
columns — its dynamically built `UPDATE` only ever includes the
`description`, `severity` and `published_date` columns — even though a null
impact or mitigation qualifies the row both for the batch selection and for
the per-record re-check (and hence triggers a fetch on every run). -/
theorem enrichment_frame_impact_mitigation (v : Vulnerability) (nvd : Option NvdCve) :
    (update_fields_if_unknown v nvd).row.impact = v.impact
    ∧ (update_fields_if_unknown v nvd).row.mitigation = v.mitigation
    ∧ (∀ c, c ∈ (update_fields_if_unknown v nvd).cols →
        c = "description" ∨ c = "severity" ∨ c = "published_date")
    ∧ (v.impact = none → sql_qualifies v = true ∧ needs_update v = true)
    ∧ (v.mitigation = none → sql_qualifies v = true ∧ needs_update v = true) := by
  have hsel1 : v.impact = none → sql_qualifies v = true ∧ needs_update v = true := by
    intro h
    exact ⟨by simp [sql_qualifies, h], by simp [needs_update, opt_blank, h]⟩
  have hsel2 : v.mitigation = none → sql_qualifies v = true ∧ needs_update v = true := by
    intro h
    exact ⟨by simp [sql_qualifies, h], by simp [needs_update, opt_blank, h]⟩
  rcases update_fields_cases v nvd with ⟨hrow, hcols⟩ | ⟨cve, hnvd, hrow, hcols⟩
  · rw [hrow, hcols]
    refine ⟨rfl, rfl, ?_, hsel1, hsel2⟩
    intro c hc
    simp at hc
  · rw [hrow, hcols]
    refine ⟨rfl, rfl, ?_, hsel1, hsel2⟩
    intro c hc
    rw [update_columns] at hc
    simp only [List.mem_append] at hc
    rcases hc with (hc | hc) | hc
    · split at hc <;> simp_all
    · split at hc <;> simp_all
    · split at hc <;> simp_all

/-- C10 witness: a fully-unknown row is selected, fetched, and only the three
allowed columns are written; impact and mitigation stay untouched. -/
theorem enrichment_frame_impact_mitigation_witness :
    (update_fields_if_unknown vEmptyRow (some cveFetched)).row.impact
      = vEmptyRow.impact
    ∧ (update_fields_if_unknown vEmptyRow (some cveFetched)).row.mitigation
      = vEmptyRow.mitigation
    ∧ ("description" = "description" ∨ "description" = "severity"
        ∨ "description" = "published_date")
    ∧ (sql_qualifies vEmptyRow = true ∧ needs_update vEmptyRow = true)
    ∧ (sql_qualifies vEmptyRow = true ∧ needs_update vEmptyRow = true) :=
  ⟨(enrichment_frame_impact_mitigation vEmptyRow (some cveFetched)).1,
   (enrichment_frame_impact_mitigation vEmptyRow (some cveFetched)).2.1,
   (enrichment_frame_impact_mitigation vEmptyRow (some cveFetched)).2.2.1
     "description" (by decide),
   (enrichment_frame_impact_mitigation vEmptyRow (some cveFetched)).2.2.2.1 rfl,
   (enrichment_frame_impact_mitigation vEmptyRow (some cveFetched)).2.2.2.2 rfl⟩

/-- C9 (amended): running enrichment twice on the same record with identical
fetched data converges — the second run leaves the row exactly as the first
run left it — and the second run skips the write and reports no update
precisely when the once-updated row no longer satisfies the qualification
predicate; when it still qualifies (for instance because impact or mitigation
remain missing, which enrichment never fills) the second run re-issues an
`UPDATE` that rewrites unchanged values. -/
theorem enrichment_converges (v : Vulnerability) (nvd : Option NvdCve) :
    (update_fields_if_unknown (update_fields_if_unknown v nvd).row nvd).row
      = (update_fields_if_unknown v nvd).row
    ∧ (needs_update (update_fields_if_unknown v nvd).row = false →
        (update_fields_if_unknown (update_fields_if_unknown v nvd).row nvd).cols = []
        ∧ (update_fields_if_unknown (update_fields_if_unknown v nvd).row nvd).updated
          = false) := by
  constructor
  · rcases update_fields_cases v nvd with ⟨hrow, -⟩ | ⟨cve, hnvd, hrow, -⟩
    · rw [hrow]
      exact hrow
    · rw [hrow]
      rcases update_fields_cases (apply_update v cve) nvd with ⟨h2, -⟩
        | ⟨cve2, hcve2, h2, -⟩
      · exact h2
      · have hc : cve2 = cve := by
          rw [hnvd] at hcve2
          exact (Option.some_inj.mp hcve2).symm
        rw [h2, hc]
        exact apply_update_idem v cve
  · intro h
    have hW : update_fields_if_unknown (update_fields_if_unknown v nvd).row nvd
        = ⟨false, (update_fields_if_unknown v nvd).row, []⟩ := by
      rw [update_fields_if_unknown.eq_def, h]
      simp
    rw [hW]
    exact ⟨rfl, rfl⟩

/-- C9 witness: a row whose only unknown field was its severity is fully
known after one enrichment, so the second run writes nothing. -/
theorem enrichment_converges_witness :
    (update_fields_if_unknown
        (update_fields_if_unknown vOnlySeverity (some cveFetched)).row
        (some cveFetched)).row
      = (update_fields_if_unknown vOnlySeverity (some cveFetched)).row
    ∧ ((update_fields_if_unknown
          (update_fields_if_unknown vOnlySeverity (some cveFetched)).row
          (some cveFetched)).cols = []
        ∧ (update_fields_if_unknown
            (update_fields_if_unknown vOnlySeverity (some cveFetched)).row
            (some cveFetched)).updated = false) :=
  ⟨(enrichment_converges vOnlySeverity (some cveFetched)).1,
   (enrichment_converges vOnlySeverity (some cveFetched)).2 (by decide)⟩

/-- C9 counterexample: for a row that still lacks impact and mitigation after
the first run, the second run — with identical source data — re-qualifies the
row and issues a non-empty `UPDATE` (a database write) whose column list
includes `description` although the value does not change, while the row
state stays identical; this refutes "the second run performs no database
write" and "the UPDATE includes only columns whose values actually change". -/
theorem second_run_still_writes_cx :
    (update_fields_if_unknown
        (update_fields_if_unknown vEmptyRow (some cveFetched)).row
        (some cveFetched)).cols ≠ []
    ∧ "description" ∈ (update_fields_if_unknown
        (update_fields_if_unknown vEmptyRow (some cveFetched)).row
        (some cveFetched)).cols
    ∧ (update_fields_if_unknown
        (update_fields_if_unknown vEmptyRow (some cveFetched)).row
        (some cveFetched)).row
      = (update_fields_if_unknown vEmptyRow (some cveFetched)).row := by
  decide

/-- C4 (amended): the importer always stores one of the four canonical
severities, and enrichment either keeps the stored severity or stores exactly
the value produced by `get_severity` — the upper-cased first available source
rating — which need not be canonical. -/
theorem severity_sources_amended :
    (∀ raw : String, parse_severity raw = "High" ∨ parse_severity raw = "Medium"
      ∨ parse_severity raw = "Low" ∨ parse_severity raw = "Unknown")
    ∧ (∀ (v : Vulnerability) (nvd : Option NvdCve),
        (update_fields_if_unknown v nvd).row.severity = v.severity
        ∨ ∃ cve s, nvd = some cve ∧ get_severity cve.metrics = some s
            ∧ (update_fields_if_unknown v nvd).row.severity = s) := by
  constructor
  · intro raw
    rw [parse_severity]
    split
    · exact Or.inl rfl
    · split
      · exact Or.inr (Or.inl rfl)
      · split
        · exact Or.inr (Or.inr (Or.inl rfl))
        · exact Or.inr (Or.inr (Or.inr rfl))
  · intro v nvd
    rcases update_fields_cases v nvd with ⟨hrow, -⟩ | ⟨cve, hnvd, hrow, -⟩
    · left
      rw [hrow]
    · rw [hrow]
      by_cases hc : sev_unknown (enrich_severity v cve)
      · left
        simp [apply_update, hc]
      · by_cases hs : sev_unknown v.severity
        · cases hg : get_severity cve.metrics with
          | none =>
            left
            have h1 : enrich_severity v cve = v.severity := by
              simp [enrich_severity, hs, hg]
            simp [apply_update, h1, hs]
          | some s =>
            right
            have h1 : enrich_severity v cve = s := by
              simp [enrich_severity, hs, hg]
            have hc2 : sev_unknown s = false := by
              rw [h1] at hc
              simpa using hc
            refine ⟨cve, s, hnvd, hg, ?_⟩
            simp [apply_update, h1, hc2]
        · left
          have h1 : enrich_severity v cve = v.severity := by
            simp [enrich_severity, hs]
          simp [apply_update, h1, hs]

/-- C4 counterexample: a record imported with an unrecognized status gets the
canonical `Unknown` sentinel, and one enrichment run with a source rating of
`high` stores the non-canonical upper-cased string `HIGH` in the severity
column. -/
theorem enrichment_uppercase_severity_cx :
    process_csv_record recReserved = Except.ok vReserved
    ∧ (update_fields_if_unknown vReserved (some cveFetched)).row.severity = "HIGH"
    ∧ ("HIGH" ≠ "High" ∧ "HIGH" ≠ "Medium" ∧ "HIGH" ≠ "Low" ∧ "HIGH" ≠ "Unknown") :=
  ⟨rfl, by decide, by decide⟩

/-- C2 (amended): for every paginated search, the returned total page count
equals `ceil(C / 15)` where `C` counts the rows matching the same predicate
as the `SELECT` and `15` is the fixed `DISPLAY_PAGE_SIZE` constant — it does
not depend on the requested `page_size` — while the `SELECT` does read rows
starting at offset `page * page_size`. -/
theorem total_pages_uses_display_size (table : List Vulnerability)
    (q : String) (f : SortField) (asc : Bool) (fs : FilterSeverity)
    (p s s2 : Nat) :
    (load_vulnerabilities table q f asc fs p s).total_pages
      = ((table.filter (row_matches q fs)).length + DISPLAY_PAGE_SIZE - 1)
        / DISPLAY_PAGE_SIZE
    ∧ (load_vulnerabilities table q f asc fs p s).total_pages
      = (load_vulnerabilities table q f asc fs p s2).total_pages
    ∧ (load_vulnerabilities table q f asc fs p s).items
      = ((ordered_rows f asc (table.filter (row_matches q fs))).drop (p * s)).take s :=
  ⟨rfl, rfl, rfl⟩

/-- C2 counterexample: a table with 16 matching rows queried with
`page_size = 16` yields `total_pages = 2` (`ceil(16 / 15)`), not the
`ceil(16 / 16) = 1` the claim requires. -/
theorem total_pages_ignores_requested_size_cx :
    (table16.filter (row_matches "" FilterSeverity.All)).length = 16
    ∧ (load_vulnerabilities table16 "" SortField.NoSort true FilterSeverity.All
        0 16).total_pages = 2
    ∧ (16 + 16 - 1) / 16 = 1 := by
  decide

/-- C5: the severity-sort `CASE` ranks only the exact upper-case strings;
the canonical values stored by the importer (`High`, `Medium`, `Low`,
`Unknown`) all fall into the default rank 4, so on a table holding an
importer-written `Medium` row (rowid 1) and `High` row (rowid 2) the
severity-sorted result returns the `Medium` row first in both directions —
the claim's High-before-Medium tier ordering fails. -/
theorem severity_sort_case_mismatch :
    severity_rank "HIGH" = 1 ∧ severity_rank "MEDIUM" = 2
    ∧ severity_rank "LOW" = 3
    ∧ severity_rank vSortHigh.severity = 4
    ∧ severity_rank vSortMedium.severity = 4
    ∧ (load_vulnerabilities [vSortMedium, vSortHigh] "" SortField.Severity true
        FilterSeverity.All 0 10).items.map (fun v => v.severity)
      = ["Medium", "High"]
    ∧ (load_vulnerabilities [vSortMedium, vSortHigh] "" SortField.Severity false
        FilterSeverity.All 0 10).items.map (fun v => v.severity)
      = ["Medium", "High"] := by
  decide

/-- C6: a row holding the importer's `Unknown` sentinel with every other
field known satisfies the per-record qualification predicate of the same
file, yet the batch SELECT's case-sensitive `severity = 'UNKNOWN'`
comparison never matches it, so it is never selected into an enrichment
batch. -/
theorem batch_select_misses_sentinel :
    parse_severity "Reserved" = "Unknown"
    ∧ vSentinel.severity = "Unknown"
    ∧ sql_qualifies vSentinel = false
    ∧ needs_update vSentinel = true := by
  decide

/-- C3: one `check_schema_version` call against a fresh database (empty
ledger, version 0) applies only the single `0 → 1` step — there is no loop —
leaving `max(version) = 1`, not the latest version 3 that the claim (and the
repository's own `test_migrations`) requires; further calls are needed to
reach 3. -/
theorem migration_from_zero_single_step :
    get_schema_version (check_schema_version []) = 1
    ∧ get_schema_version (check_schema_version []) ≠ 3
    ∧ get_schema_version
        (check_schema_version (check_schema_version (check_schema_version []))) = 3 := by
  decide

/-- C7 (amended): a row whose business key fails CVE-format validation is
skipped with a warning and the import continues over the remaining rows
unchanged; but a row whose date field fails to parse is NOT skipped — it is
processed successfully and imported with a null published date. -/
theorem import_row_error_handling (db : VulnTable)
    (rs1 rs2 : List VulnerabilityCsvRecord) (r s : VulnerabilityCsvRecord)
    (dstr : String)
    (hr : is_valid_cve_id r.cve_id = false)
    (hs : is_valid_cve_id s.cve_id = true)
    (hd : s.published_date = some dstr)
    (hp : parse_date dstr = none) :
    import_vulnerabilities db (rs1 ++ r :: rs2) = import_vulnerabilities db (rs1 ++ rs2)
    ∧ ∃ v, process_csv_record s = Except.ok v ∧ v.published_date = none
        ∧ v.cve_id = s.cve_id := by
  have herr : process_csv_record r = Except.error "Invalid CVE ID format" := by
    simp [process_csv_record, hr]
  have hpr : processed_rows (rs1 ++ r :: rs2) = processed_rows (rs1 ++ rs2) := by
    simp [processed_rows, List.filterMap_append, List.filterMap_cons, herr]
  constructor
  · simp [import_vulnerabilities, hpr]
  · have hok : process_csv_record s = Except.ok
        { vulnerability_id := none
          cve_id := s.cve_id
          description := non_empty_string s.description
          severity := parse_severity s.severity
          impact := s.impact
          mitigation := s.mitigation
          published_date := s.published_date.bind (fun t => parse_date t) } := by
      simp [process_csv_record, hs]
    refine ⟨_, hok, ?_, rfl⟩
    simp [hd, hp]

/-- C7 witness: a feed holding one invalid-key record and one bad-date record
imports as if the invalid record were absent, while the bad-date record is
accepted with a null date. -/
theorem import_row_error_handling_witness :
    import_vulnerabilities empty_table ([] ++ recBadKey :: [recBadDate])
      = import_vulnerabilities empty_table ([] ++ [recBadDate])
    ∧ ∃ v, process_csv_record recBadDate = Except.ok v ∧ v.published_date = none
        ∧ v.cve_id = recBadDate.cve_id :=
  import_row_error_handling empty_table [] [recBadDate] recBadKey recBadDate
    "NotADate" (by decide) (by decide) rfl (by decide)

/-- C7 counterexample: the record with valid key `CVE-2023-0001` and
unparseable date `NotADate` is inserted (count 1, row present with null
date), although the claim says a failed date parse skips the row. -/
theorem bad_date_row_imported_cx :
    parse_date "NotADate" = none
    ∧ (import_vulnerabilities empty_table [recBadDate]).2 = 1
    ∧ (import_vulnerabilities empty_table [recBadDate]).1 "CVE-2023-0001"
      = some { vulnerability_id := none, cve_id := "CVE-2023-0001",
               description := some "A test", severity := "High", impact := none,
               mitigation := none, published_date := none } := by
  decide

/-- C8: importing the same feed twice returns the same inserted-row count as
importing it once and leaves the table (a map keyed by the unique business
key `cve_id`, which `INSERT OR REPLACE` overwrites on conflict) in exactly
the same state. -/
theorem reimport_idempotent (db : VulnTable)
    (records : List VulnerabilityCsvRecord) :
    (import_vulnerabilities (import_vulnerabilities db records).1 records).2
      = (import_vulnerabilities db records).2
    ∧ (import_vulnerabilities (import_vulnerabilities db records).1 records).1
      = (import_vulnerabilities db records).1 := by
  refine ⟨rfl, ?_⟩
  exact insert_vulnerabilities_idem db (processed_rows records)
